import Mathlib

/-!
Shallow embedding of the generic persistence/response layer of the
construction-project cost-management backend (files `src/api/src/utils/helper.py`,
`src/api/src/utils/errors.py`, `src/api/src/utils/common.py`).

Conventions of the embedding:
* Python values that only matter through their truthiness and equality
  (the `obj_id` / `matchValue` argument of `db_filter`) are modelled by
  the small universe `PyVal` (None, int, str) with Python truthiness.
* A SQLAlchemy column argument (`field_comp` / `matchField`) is modelled as
  `Option (row -> PyVal)`: `none` is the Python `None`, `some f` a column,
  which is always truthy as a Python object.
* The database table behind a session is a `List` of rows (its natural order);
  `session.get` is an association-list lookup keyed by the id string.
* Raising is modelled with explicit sum types (`PyResult`, `Except HelperExc`).
* Store faults that the pure model cannot produce (a failing `session.get`,
  a failing `session.commit`) are passed in as explicit outcome parameters,
  mirroring the try/except structure of the source.
-/

/-- Python value universe for arguments whose truthiness and equality drive
`db_filter` (`helper.py`). `none` is Python None, `int`/`str` the payloads
appearing at the call sites (uuid ids are modelled as nonempty strings). -/
inductive PyVal where
  | none
  | int (n : Int)
  | str (s : String)
deriving DecidableEq, Repr

/-- Python truthiness on `PyVal`: None is falsy, 0 is falsy, "" is falsy. -/
def PyVal.truthy : PyVal → Bool
  | PyVal.none => false
  | PyVal.int n => n != 0
  | PyVal.str s => s != ""

/-- The `FilterMode` enum of `helper.py` (FIRST, LAST, ALL). -/
inductive FilterMode where
  | first
  | last
  | all
deriving DecidableEq, Repr

/-- Result of a Python call that may raise `ValueError`. -/
inductive PyResult (α : Type) where
  | ok (val : α)
  | valueError (msg : String)
deriving DecidableEq, Repr

/-- The `Union[List[T], Optional[T]]` return shape of `db_filter`:
mode ALL returns a list, FIRST/LAST return an optional row. -/
inductive FilterValue (α : Type) where
  | coll (rows : List α)
  | single (row : Option α)
deriving DecidableEq, Repr

/-- A `db_filter` return value together with the observable fact whether
`session.exec` was reached (`queried`): the `limit == 0` short-circuit
returns without touching the store. -/
structure DbFilterOut (α : Type) where
  value : FilterValue α
  queried : Bool
deriving DecidableEq, Repr

/-- Embedding of `db_filter` (`helper.py` lines 76-121).
`table` is the session content for the queried entity in store order,
`obj_id` the `obj_id` argument, `field_comp` the column argument
(`none` = Python None), `indexer` the ordering column for mode LAST.
The validation steps follow the source order: non-negativity of
`limit`/`offset` (messages joined by " | "), the `limit > 100` bound,
the `limit == 0` short-circuit, the truthiness-XOR check on
`obj_id`/`field_comp`, then the mode dispatch. The Python
`case _` branch is unreachable over the three-valued enum. -/
def db_filter {α : Type} (table : List α) (obj_id : PyVal)
    (field_comp : Option (α → PyVal)) (indexer : α → Int) (mode : FilterMode)
    (limit : Int) (offset : Int) : PyResult (DbFilterOut α) :=
  let errors : List String :=
    (if limit < 0 then ["Limit cannot be less than 0"] else []) ++
      (if offset < 0 then ["Offset cannot be less than 0"] else [])
  if errors ≠ [] then
    PyResult.valueError (String.intercalate " | " errors)
  else if limit > 100 then
    PyResult.valueError "Limit must not exceed by 100 per transaction"
  else if limit = 0 then
    PyResult.ok ⟨FilterValue.coll [], false⟩
  else if Bool.xor obj_id.truthy field_comp.isSome then
    PyResult.valueError "obj_id and field_comp must both be provided together."
  else
    let query : List α :=
      match field_comp with
      | Option.none => table
      | Option.some f =>
          if obj_id.truthy then table.filter (fun r => f r == obj_id) else table
    match mode with
    | FilterMode.all =>
        PyResult.ok ⟨FilterValue.coll ((query.drop offset.toNat).take limit.toNat), true⟩
    | FilterMode.first =>
        PyResult.ok ⟨FilterValue.single query.head?, true⟩
    | FilterMode.last =>
        PyResult.ok ⟨FilterValue.single
          (query.foldl (fun acc r =>
            match acc with
            | Option.none => some r
            | Option.some m => if indexer m < indexer r then some r else acc)
            Option.none), true⟩

example :
    db_filter ([] : List Nat) PyVal.none (some fun n => PyVal.int n)
      (fun n => (n : Int)) FilterMode.all 0 0
      = PyResult.ok ⟨FilterValue.coll [], false⟩ := by decide

example :
    db_filter ([1, 2, 3] : List Nat) (PyVal.int 2) (some fun n => PyVal.int n)
      (fun n => (n : Int)) FilterMode.all 5 0
      = PyResult.ok ⟨FilterValue.coll [2], true⟩ := by decide

example :
    db_filter ([1, 2, 3] : List Nat) PyVal.none none
      (fun n => (n : Int)) FilterMode.last 5 0
      = PyResult.ok ⟨FilterValue.single (some 3), true⟩ := by decide

example :
    db_filter ([1, 2, 3] : List Nat) (PyVal.int 0) (some fun n => PyVal.int n)
      (fun n => (n : Int)) FilterMode.first 5 0
      = PyResult.valueError "obj_id and field_comp must both be provided together." := by
  decide

example :
    db_filter ([1, 2, 3] : List Nat) PyVal.none none
      (fun n => (n : Int)) FilterMode.first (-1) (-2)
      = PyResult.valueError "Limit cannot be less than 0 | Offset cannot be less than 0" := by
  decide

/-- Exceptions of the helper layer (`helper.py`): `HTTPException(status, detail)`
and the bare `AssertionError` of a failing `assert`. -/
inductive HelperExc where
  | httpException (status : Int) (detail : String)
  | assertionError
deriving DecidableEq, Repr

/-- Embedding of `read` (`helper.py` lines 32-42). `getResult` is the outcome of
the `session.get(db, obj_id)` call inside the try block: `Except.error e` models
the store raising (translated to a 500), `Except.ok obj` its normal return.
After the lookup the source runs
`if not obj and raise_empty: raise HTTPException(404, ...)` and then
`assert obj is not None` — so on a missing record with `raise_empty` false the
call raises `AssertionError` instead of returning the empty result. -/
def read {α : Type} (getResult : Except String (Option α)) (obj_id : String)
    (dbName : String) (raise_empty : Bool) : Except HelperExc α :=
  match getResult with
  | Except.error e =>
      Except.error (HelperExc.httpException 500 ("Database read error: " ++ e))
  | Except.ok obj =>
      match obj with
      | Option.some o => Except.ok o
      | Option.none =>
          if raise_empty then
            Except.error (HelperExc.httpException 404
              (dbName ++ " with id " ++ obj_id ++ " not found"))
          else
            Except.error HelperExc.assertionError

/-- Outcome of the `session.commit(); session.refresh(obj)` block inside
`create` (`helper.py` lines 16-29), classified by the except clauses of the
source: `integrityError` carries `str(e.orig)`, `validationError` carries
`str(e)` of the pydantic error, `otherError` carries `str(e)` of any other
exception. -/
inductive CommitOutcome where
  | success
  | integrityError (orig : String)
  | validationError (msg : String)
  | otherError (msg : String)
deriving DecidableEq, Repr

/-- What a `create` call leaves behind: its return-or-raise, and whether
`session.rollback()` ran. -/
structure CreateResult (α : Type) where
  result : Except HelperExc α
  rolledBack : Bool
deriving Repr

/-- Embedding of `create` (`helper.py` lines 14-29). `refresh` models
`session.refresh` repopulating post-commit generated fields; each except
clause rolls back and raises the corresponding `HTTPException`
(409 for `IntegrityError`, 422 for `ValidationError`, 500 otherwise). -/
def create {α : Type} (refresh : α → α) (outcome : CommitOutcome) (obj : α) :
    CreateResult α :=
  match outcome with
  | CommitOutcome.success =>
      ⟨Except.ok (refresh obj), false⟩
  | CommitOutcome.integrityError orig =>
      ⟨Except.error (HelperExc.httpException 409 orig), true⟩
  | CommitOutcome.validationError msg =>
      ⟨Except.error (HelperExc.httpException 422 msg), true⟩
  | CommitOutcome.otherError msg =>
      ⟨Except.error (HelperExc.httpException 500 msg), true⟩

/-- A persisted record: its attribute map, attribute names unique in the
intended instances (Python object attributes). -/
abbrev Record : Type := List (String × PyVal)

/-- A partial patch: the dictionary `obj_content.model_dump(exclude_unset=True)`
of `update` — only the fields explicitly present in the request body. -/
abbrev Patch : Type := List (String × PyVal)

/-- Python `setattr(obj, key, value)` on the attribute map: replace the first
binding of `key`, or append a new one. -/
def setattr : Record → String → PyVal → Record
  | [], key, value => [(key, value)]
  | (k, v) :: rest, key, value =>
      if k = key then (key, value) :: rest else (k, v) :: setattr rest key value

/-- The `for key, value in obj_content.model_dump(exclude_unset=True).items():
setattr(obj, key, value)` loop of `update` (`helper.py` lines 48-49). -/
def applyPatch (obj : Record) (patch : Patch) : Record :=
  patch.foldl (fun o kv => setattr o kv.1 kv.2) obj

/-- Embedding of `update` (`helper.py` lines 45-51): `read` with the default
`raise_empty=True` (its exception propagates unchanged), the setattr loop,
then delegation to `create` for persistence. -/
def update (getResult : Except String (Option Record)) (refresh : Record → Record)
    (outcome : CommitOutcome) (obj_id : String) (dbName : String) (patch : Patch) :
    Except HelperExc Record :=
  match read getResult obj_id dbName true with
  | Except.error e => Except.error e
  | Except.ok obj => (create refresh outcome (applyPatch obj patch)).result

example :
    update (Except.ok (some [("a", PyVal.int 1), ("b", PyVal.str "x")]))
      (fun r => r) CommitOutcome.success "id1" "Users" [("b", PyVal.str "y")]
      = Except.ok [("a", PyVal.int 1), ("b", PyVal.str "y")] := by rfl

example :
    update (Except.ok none) (fun r => r) CommitOutcome.success "id1" "Users" []
      = Except.error (HelperExc.httpException 404 "Users with id id1 not found") := by
  rfl

/-- Python string slice `s[:n]`: the first `n` characters. -/
def pySlice (s : String) (n : Nat) : String :=
  (s.toList.take n).asString

/-- The `ActivityLog` row as constructed by `log` (`common.py` lines 19-26);
uuid ids are modelled as strings, the generated primary key and timestamp are
omitted. -/
structure ActivityLog where
  user_id : Option String
  project_id : Option String
  action_type : String
  action_desc : String
  status_code : Int
  details : String
deriving DecidableEq, Repr

/-- What a `log` call leaves behind: the constructed row, whether the commit
persisted it, the operator-visible `print` output (on failure), and whether
`session.rollback()` ran. -/
structure LogResult where
  row : ActivityLog
  stored : Bool
  printed : Option String
  rolledBack : Bool
deriving DecidableEq, Repr

/-- Embedding of `log` (`common.py` lines 10-33). `commitResult` is the outcome
of the `session.add; session.commit; session.refresh` block (`none` = success,
`some e` = an exception with message `e`). The row truncates `message` to 255
characters (`message[:255]`). The except clause prints and rolls back, so the
call always returns normally: the `Except` channel is never `.error`. -/
def log (commitResult : Option String) (action : String) (message : String)
    (user_id : Option String) (details : String) (code : Int)
    (project_id : Option String) : Except HelperExc LogResult :=
  let statuslog : ActivityLog :=
    ⟨user_id, project_id, action, pySlice message 255, code, details⟩
  match commitResult with
  | Option.none => Except.ok ⟨statuslog, true, none, false⟩
  | Option.some e =>
      Except.ok ⟨statuslog, false, some ("CRITICAL LOGGING ERROR " ++ e), true⟩

example :
    log (some "disk full") "API_CALL_FAIL" "msg" none "" 500 none
      = Except.ok ⟨⟨none, none, "API_CALL_FAIL", "msg", 500, ""⟩, false,
          some "CRITICAL LOGGING ERROR disk full", true⟩ := by rfl

/-- The `ErrorDescription` model (`response.py` lines 37-42), restricted to the
deterministic fields: the randomly generated `id` and the optional `context`
(always defaulted in the error pipeline) are omitted. -/
structure ErrorDescription where
  status : Int
  title : String
  detail : String
deriving DecidableEq, Repr

/-- The `ErrorResponse` model (`response.py` lines 32-34): the envelope with
`result` discriminator and the error list. -/
structure ErrorResponse where
  result : String
  errors : List ErrorDescription
deriving DecidableEq, Repr

/-- The `JSONResponse` produced by `error_response`: HTTP status code plus the
serialized envelope. -/
structure JSONErrorResponse where
  status_code : Int
  content : ErrorResponse
deriving DecidableEq, Repr

/-- One element of the `errors` list handed to `error_response`: a Python dict
whose `status`/`title`/`detail` keys may be absent (`err.get` defaults). -/
structure ErrDict where
  status : Option Int
  title : Option String
  detail : Option String
deriving DecidableEq, Repr

/-- Embedding of the inner `get_errordesc` of `error_response`
(`errors.py` lines 15-20): missing keys default to the call status,
"Error" and "An error occurred". -/
def get_errordesc (status : Int) (err : ErrDict) : ErrorDescription :=
  ⟨err.status.getD status, err.title.getD "Error", err.detail.getD "An error occurred"⟩

/-- Embedding of `error_response` (`errors.py` lines 14-26). -/
def error_response (errors : List ErrDict) (status : Int) : JSONErrorResponse :=
  ⟨status, ⟨"error", errors.map (get_errordesc status)⟩⟩

/-- The request data `error_handler` reads: `str(request.url)`,
`request.method`, and the optional `request.state.user_id`. -/
structure RequestInfo where
  url : String
  method : String
  user_id : Option String
deriving DecidableEq, Repr

/-- The exceptions `error_handler` distinguishes (`errors.py` lines 32-89), in
isinstance-check order: `RequestValidationError` (its `.errors()` list modelled
as location-path/message pairs), `HTTPException` (status and detail),
`ValueError` (with `str(exc)`), and any other exception (class name and
`str(exc)`). -/
inductive Exc where
  | requestValidationError (errs : List (List String × String))
  | httpException (status : Int) (detail : String)
  | valueError (msg : String)
  | other (errorClass : String) (msg : String)
deriving DecidableEq, Repr

/-- The `log_details` dict of `error_handler`: empty on the handled branches,
and `path`/`method`/`error_class` on the unhandled-exception branch. -/
structure LogDetails where
  path : String
  method : String
  error_class : String
deriving DecidableEq, Repr

/-- The arguments `error_handler` passes to `log` for statuses >= 400
(`errors.py` lines 91-100): the action tag, the status, the message
`title ++ ": " ++ detail`, the request user id, and the `log_details` dict
(`none` models the empty dict). -/
structure LogCall where
  action : String
  code : Int
  message : String
  user_id : Option String
  details : Option LogDetails
deriving DecidableEq, Repr

/-- What `error_handler` produces: the JSON response returned to the client and
the audit-log call it performed (if any). -/
structure HandlerResult where
  response : JSONErrorResponse
  logged : Option LogCall
deriving DecidableEq, Repr

/-- Embedding of `error_handler` (`errors.py` lines 29-102). Branches in source
order. On the validation branch each sub-error becomes one envelope entry with
detail `"<dotted.path>: <message>"`, while the audit detail accumulates
`"RequestValidationError: [..] [..] "`. On the unhandled branch the local
`detail` variable holds the fixed generic message (used only in the audit
message), while the response entry carries `str(exc)` as its detail, and
`log_details` records path, method and exception class name. The audit write
runs for every status >= 400, which is every branch except an `HTTPException`
carrying a status below 400. -/
def error_handler (request : RequestInfo) (exc : Exc) : HandlerResult :=
  match exc with
  | Exc.requestValidationError errs =>
      let entries : List ErrDict := errs.map (fun err =>
        let error_location := String.intercalate "." err.1
        let error_message := error_location ++ ": " ++ err.2
        ⟨some 422, some "Validation Error", some error_message⟩)
      let detail : String := errs.foldl (fun d err =>
        d ++ "[" ++ (String.intercalate "." err.1 ++ ": " ++ err.2) ++ "] ")
        "RequestValidationError: "
      ⟨error_response entries 422,
        some ⟨"API_CALL_FAIL", 422, "Validation Error: " ++ detail,
          request.user_id, none⟩⟩
  | Exc.httpException status detail =>
      ⟨error_response [⟨some status, some "Error", some detail⟩] status,
        if 400 ≤ status then
          some ⟨"API_CALL_FAIL", status, "Error: " ++ detail, request.user_id, none⟩
        else none⟩
  | Exc.valueError msg =>
      ⟨error_response [⟨some 404, some "Error", some msg⟩] 404,
        some ⟨"API_CALL_FAIL", 404, "Error: " ++ msg, request.user_id, none⟩⟩
  | Exc.other errorClass msg =>
      ⟨error_response [⟨some 500, some "Internal Server Error", some msg⟩] 500,
        some ⟨"API_CALL_FAIL", 500,
          "Internal Server Error: An unhandled critical error occurred.",
          request.user_id,
          some ⟨request.url, request.method, errorClass⟩⟩⟩

/-- A fixed concrete request for the closed counterexample and witness
statements. -/
def req0 : RequestInfo := ⟨"http://localhost/api/users", "GET", some "u-1"⟩

example :
    error_handler req0 (Exc.other "RuntimeError" "boom")
      = ⟨⟨500, ⟨"error", [⟨500, "Internal Server Error", "boom"⟩]⟩⟩,
          some ⟨"API_CALL_FAIL", 500,
            "Internal Server Error: An unhandled critical error occurred.",
            some "u-1", some ⟨"http://localhost/api/users", "GET", "RuntimeError"⟩⟩⟩ := by
  decide

example :
    error_handler req0 (Exc.requestValidationError [(["body", "name"], "Field required")])
      = ⟨⟨422, ⟨"error", [⟨422, "Validation Error", "body.name: Field required"⟩]⟩⟩,
          some ⟨"API_CALL_FAIL", 422,
            "Validation Error: RequestValidationError: [body.name: Field required] ",
            some "u-1", none⟩⟩ := by decide

example :
    error_handler req0 (Exc.httpException 302 "redirect")
      = ⟨⟨302, ⟨"error", [⟨302, "Error", "redirect"⟩]⟩⟩, none⟩ := by decide

/-- Whether a `PyResult` is a raised `ValueError`. -/
def PyResult.isValueError {α : Type} : PyResult α → Bool
  | PyResult.valueError _ => true
  | PyResult.ok _ => false

/-- The nontriviality condition on the detail source of each `error_handler`
branch: the validation exception carries at least one sub-error, and the
detail string / exception message of the other branches is nonempty. -/
def detailSourceOk : Exc → Bool
  | Exc.requestValidationError errs => !errs.isEmpty
  | Exc.httpException _ detail => detail != ""
  | Exc.valueError msg => msg != ""
  | Exc.other _ msg => msg != ""

theorem lookup_setattr_self (r : Record) (k : String) (v : PyVal) :
    (setattr r k v).lookup k = some v := by
  induction r with
  | nil => simp [setattr, List.lookup]
  | cons p rest ih =>
      obtain ⟨k1, v1⟩ := p
      by_cases h : k1 = k
      · subst h
        simp [setattr, List.lookup]
      · have hbeq : (k == k1) = false := beq_eq_false_iff_ne.mpr (Ne.symm h)
        simp [setattr, h, List.lookup, hbeq, ih]

theorem lookup_setattr_other (r : Record) (k k1 : String) (v : PyVal) (h : k1 ≠ k) :
    (setattr r k v).lookup k1 = r.lookup k1 := by
  induction r with
  | nil =>
      have hbeq : (k1 == k) = false := beq_eq_false_iff_ne.mpr h
      simp [setattr, List.lookup, hbeq]
  | cons p rest ih =>
      obtain ⟨k2, v2⟩ := p
      by_cases h2 : k2 = k
      · subst h2
        have hbeq : (k1 == k2) = false := beq_eq_false_iff_ne.mpr h
        simp [setattr, List.lookup, hbeq]
      · by_cases h3 : k1 = k2
        · subst h3
          simp [setattr, h2, List.lookup]
        · have hbeq : (k1 == k2) = false := beq_eq_false_iff_ne.mpr h3
          simp [setattr, h2, List.lookup, hbeq, ih]

theorem lookup_applyPatch_none (obj : Record) (patch : Patch) (k : String)
    (h : patch.lookup k = none) :
    (applyPatch obj patch).lookup k = obj.lookup k := by
  induction patch generalizing obj with
  | nil => rfl
  | cons p rest ih =>
      obtain ⟨k0, v0⟩ := p
      by_cases hk : k = k0
      · subst hk
        simp [List.lookup] at h
      · have hbeq : (k == k0) = false := beq_eq_false_iff_ne.mpr hk
        have hrest : rest.lookup k = none := by
          simpa [List.lookup, hbeq] using h
        have hstep : applyPatch obj ((k0, v0) :: rest) = applyPatch (setattr obj k0 v0) rest := rfl
        rw [hstep, ih (setattr obj k0 v0) hrest, lookup_setattr_other obj k0 k v0 hk]

theorem lookup_not_mem_keys (l : List (String × PyVal)) (k : String)
    (h : k ∉ l.map Prod.fst) : l.lookup k = none := by
  induction l with
  | nil => rfl
  | cons p rest ih =>
      obtain ⟨k0, v0⟩ := p
      simp only [List.map_cons, List.mem_cons] at h
      push_neg at h
      have hbeq : (k == k0) = false := beq_eq_false_iff_ne.mpr h.1
      simp [List.lookup, hbeq, ih h.2]

theorem lookup_applyPatch_some (obj : Record) (patch : Patch) (k : String) (v : PyVal)
    (hnd : (patch.map Prod.fst).Nodup) (h : patch.lookup k = some v) :
    (applyPatch obj patch).lookup k = some v := by
  induction patch generalizing obj with
  | nil => simp [List.lookup] at h
  | cons p rest ih =>
      obtain ⟨k0, v0⟩ := p
      simp only [List.map_cons, List.nodup_cons] at hnd
      have hstep : applyPatch obj ((k0, v0) :: rest) = applyPatch (setattr obj k0 v0) rest := rfl
      by_cases hk : k = k0
      · subst hk
        have hv : v0 = v := by simpa [List.lookup] using h
        subst hv
        have hrest : rest.lookup k = none := lookup_not_mem_keys rest k hnd.1
        rw [hstep, lookup_applyPatch_none (setattr obj k v0) rest k hrest,
          lookup_setattr_self obj k v0]
      · have hbeq : (k == k0) = false := beq_eq_false_iff_ne.mpr hk
        have hrest : rest.lookup k = some v := by
          simpa [List.lookup, hbeq] using h
        rw [hstep]
        exact ih (setattr obj k0 v0) hnd.2 hrest

theorem string_append_colon_ne_empty (a b : String) : a ++ ": " ++ b ≠ "" := by
  intro hcontr
  have hl := congrArg String.length hcontr
  rw [String.length_append, String.length_append] at hl
  have h2 : (": " : String).length = 2 := rfl
  have h0 : ("" : String).length = 0 := rfl
  rw [h2, h0] at hl
  omega

theorem pySlice_length_le (s : String) (n : Nat) : (pySlice s n).length ≤ n := by
  have h : (pySlice s n).length = (s.toList.take n).length := rfl
  rw [h, List.length_take]
  exact Nat.min_le_left _ _

theorem db_filter_xor_raises {α : Type} (table : List α) (obj_id : PyVal)
    (field_comp : Option (α → PyVal)) (indexer : α → Int) (mode : FilterMode)
    (limit offset : Int) (h1 : 1 ≤ limit) (h2 : limit ≤ 100) (h3 : 0 ≤ offset)
    (hx : Bool.xor obj_id.truthy field_comp.isSome = true) :
    db_filter table obj_id field_comp indexer mode limit offset
      = PyResult.valueError "obj_id and field_comp must both be provided together." := by
  have e1 : ¬ (limit < 0) := by omega
  have e2 : ¬ (offset < 0) := by omega
  have e3 : ¬ (limit > 100) := by omega
  have e4 : ¬ (limit = 0) := by omega
  simp [db_filter, e1, e2, e3, e4, hx]

theorem db_filter_limit_zero_eq {α : Type} (table : List α) (obj_id : PyVal)
    (field_comp : Option (α → PyVal)) (indexer : α → Int) (mode : FilterMode)
    (offset : Int) (h3 : 0 ≤ offset) :
    db_filter table obj_id field_comp indexer mode 0 offset
      = PyResult.ok ⟨FilterValue.coll [], false⟩ := by
  have e1 : ¬ ((0 : Int) < 0) := by decide
  have e2 : ¬ (offset < 0) := by omega
  have e3 : ¬ ((0 : Int) > 100) := by decide
  simp [db_filter, e1, e2, e3]

/-- C1 (counterexample): on the unhandled-exception branch the client-visible
detail is the stringified exception, not the fixed generic message
"An unhandled critical error occurred." — here a RuntimeError with message
"boom" surfaces "boom" in the envelope detail. -/
theorem C1_counterexample :
    (error_handler req0 (Exc.other "RuntimeError" "boom")).response.content.errors.map
        ErrorDescription.detail = ["boom"]
  ∧ (error_handler req0 (Exc.other "RuntimeError" "boom")).response.content.errors.map
        ErrorDescription.detail ≠ ["An unhandled critical error occurred."] := by
  decide

/-- C1 (amended): for every unhandled exception the error translator returns
HTTP status 500 with title "Internal Server Error" and the stringified
exception as the client-visible detail; the fixed generic message appears in
the audit-log message instead, and the exception class name, request path and
method are recorded in the audit-log details, not added to the client detail. -/
theorem C1_unhandled_exception_translation (request : RequestInfo)
    (errorClass msg : String) :
    error_handler request (Exc.other errorClass msg)
      = ⟨⟨500, ⟨"error", [⟨500, "Internal Server Error", msg⟩]⟩⟩,
          some ⟨"API_CALL_FAIL", 500,
            "Internal Server Error: An unhandled critical error occurred.",
            request.user_id,
            some ⟨request.url, request.method, errorClass⟩⟩⟩ := rfl

/-- C2: when no record with the given id exists, `read` with
`raise_empty = true` fails with a 404 whose message embeds the entity type
name and the id; but with `raise_empty = false` the code does not return the
empty result — it falls through to `assert obj is not None` and raises
`AssertionError`, contradicting the claim. -/
theorem C2_read_missing {α : Type} (obj_id dbName : String) :
    read (Except.ok (none : Option α)) obj_id dbName true
      = Except.error (HelperExc.httpException 404
          (dbName ++ " with id " ++ obj_id ++ " not found"))
  ∧ read (Except.ok (none : Option α)) obj_id dbName false
      = Except.error HelperExc.assertionError :=
  ⟨rfl, rfl⟩

/-- C3 (counterexample): with `limit = 0` (a valid limit) and only
`matchField` provided, the filtered-list query does not raise the
"must both be provided together" error — the `limit == 0` short-circuit
returns an empty collection first. -/
theorem C3_counterexample :
    db_filter ([] : List Nat) PyVal.none (some fun n => PyVal.int n)
      (fun n => (n : Int)) FilterMode.all 0 0
      = PyResult.ok ⟨FilterValue.coll [], false⟩ := by
  decide

/-- C3 (amended): for every call with a valid nonzero limit
(1 ≤ limit ≤ 100) and non-negative offset in which exactly one of
`matchValue` and `matchField` is provided in the truthy sense
(`matchValue` truthy XOR `matchField` given), the call raises the
ValueError "obj_id and field_comp must both be provided together." and
neither queries the store nor returns a result. -/
theorem C3_match_pair_validation {α : Type} (table : List α) (obj_id : PyVal)
    (field_comp : Option (α → PyVal)) (indexer : α → Int) (mode : FilterMode)
    (limit offset : Int) (h1 : 1 ≤ limit) (h2 : limit ≤ 100) (h3 : 0 ≤ offset)
    (hx : Bool.xor obj_id.truthy field_comp.isSome = true) :
    db_filter table obj_id field_comp indexer mode limit offset
      = PyResult.valueError "obj_id and field_comp must both be provided together." :=
  db_filter_xor_raises table obj_id field_comp indexer mode limit offset h1 h2 h3 hx

/-- C3 (witness): the amended theorem applied at a concrete call — a truthy
`matchValue` with no `matchField`, limit 5, offset 0. -/
theorem C3_match_pair_validation_witness :
    db_filter ([1, 2, 3] : List Nat) (PyVal.str "u-7") none
      (fun n => (n : Int)) FilterMode.first 5 0
      = PyResult.valueError "obj_id and field_comp must both be provided together." :=
  C3_match_pair_validation ([1, 2, 3] : List Nat) (PyVal.str "u-7") none
    (fun n => (n : Int)) FilterMode.first 5 0 (by decide) (by decide) (by decide)
    (by decide)

/-- C5: for every call with `limit = 0` and non-negative offset the
filtered-list query returns an empty collection, without raising and without
querying the store (the `queried` flag is false), for any
`matchField`/`matchValue` arguments. -/
theorem C5_limit_zero_short_circuit {α : Type} (table : List α) (obj_id : PyVal)
    (field_comp : Option (α → PyVal)) (indexer : α → Int) (mode : FilterMode)
    (offset : Int) (h3 : 0 ≤ offset) :
    db_filter table obj_id field_comp indexer mode 0 offset
      = PyResult.ok ⟨FilterValue.coll [], false⟩ :=
  db_filter_limit_zero_eq table obj_id field_comp indexer mode offset h3

/-- C5 (witness): the theorem applied at a concrete call with a populated
table, a match pair, and offset 3. -/
theorem C5_limit_zero_short_circuit_witness :
    db_filter ([4, 5] : List Nat) (PyVal.str "x") (some fun n => PyVal.int n)
      (fun n => (n : Int)) FilterMode.all 0 3
      = PyResult.ok ⟨FilterValue.coll [], false⟩ :=
  C5_limit_zero_short_circuit ([4, 5] : List Nat) (PyVal.str "x")
    (some fun n => PyVal.int n) (fun n => (n : Int)) FilterMode.all 3 (by decide)

/-- C7: for every object passed to `create`, a uniqueness-constraint violation
at commit fails with status 409 carrying the original error text, a
persist-time schema validation failure fails with status 422, any other store
failure fails with status 500; in every failure case the rollback ran before
the error propagates, and on success the refreshed record is returned without
rollback. -/
theorem C7_create_outcomes {α : Type} (refresh : α → α) (obj : α)
    (orig msgV msgO : String) :
    create refresh (CommitOutcome.integrityError orig) obj
        = ⟨Except.error (HelperExc.httpException 409 orig), true⟩
  ∧ create refresh (CommitOutcome.validationError msgV) obj
        = ⟨Except.error (HelperExc.httpException 422 msgV), true⟩
  ∧ create refresh (CommitOutcome.otherError msgO) obj
        = ⟨Except.error (HelperExc.httpException 500 msgO), true⟩
  ∧ create refresh CommitOutcome.success obj = ⟨Except.ok (refresh obj), false⟩ :=
  ⟨rfl, rfl, rfl, rfl⟩

/-- C10: the filtered-list query decides whether `matchValue` and `matchField`
were provided by truthiness — for every call with a valid nonzero limit in
which both arguments are supplied but `matchValue` is falsy (the integer 0 or
the empty string) while `matchField` is given, the call raises the
"must both be provided together" ValueError instead of filtering on that
value. -/
theorem C10_truthiness_provided {α : Type} (table : List α) (f : α → PyVal)
    (indexer : α → Int) (mode : FilterMode) (limit offset : Int)
    (h1 : 1 ≤ limit) (h2 : limit ≤ 100) (h3 : 0 ≤ offset) :
    db_filter table (PyVal.int 0) (some f) indexer mode limit offset
        = PyResult.valueError "obj_id and field_comp must both be provided together."
  ∧ db_filter table (PyVal.str "") (some f) indexer mode limit offset
        = PyResult.valueError "obj_id and field_comp must both be provided together." :=
  ⟨db_filter_xor_raises table (PyVal.int 0) (some f) indexer mode limit offset
      h1 h2 h3 rfl,
    db_filter_xor_raises table (PyVal.str "") (some f) indexer mode limit offset
      h1 h2 h3 rfl⟩

/-- C10 (witness): the theorem applied at a concrete call, limit 5, offset 0. -/
theorem C10_truthiness_provided_witness :
    db_filter ([1, 2, 3] : List Nat) (PyVal.int 0) (some fun n => PyVal.int n)
        (fun n => (n : Int)) FilterMode.all 5 0
      = PyResult.valueError "obj_id and field_comp must both be provided together."
  ∧ db_filter ([1, 2, 3] : List Nat) (PyVal.str "") (some fun n => PyVal.int n)
        (fun n => (n : Int)) FilterMode.all 5 0
      = PyResult.valueError "obj_id and field_comp must both be provided together." :=
  C10_truthiness_provided ([1, 2, 3] : List Nat) (fun n => PyVal.int n)
    (fun n => (n : Int)) FilterMode.all 5 0 (by decide) (by decide) (by decide)

/-- C4: the filtered-list query raises a ValueError-class error for every call
with limit greater than 100 (no silent clamping), never raises the limit-bound
error for limit 100, and for negative limit and/or negative offset raises a
single ValueError whose message enumerates all violated non-negativity
constraints joined by " | ". -/
theorem C4_limit_bounds {α : Type} (table : List α) (obj_id : PyVal)
    (field_comp : Option (α → PyVal)) (indexer : α → Int) (mode : FilterMode) :
    (∀ limit offset : Int, 100 < limit →
        (db_filter table obj_id field_comp indexer mode limit offset).isValueError
          = true)
  ∧ (∀ offset : Int,
        db_filter table obj_id field_comp indexer mode 100 offset
          ≠ PyResult.valueError "Limit must not exceed by 100 per transaction")
  ∧ (∀ limit offset : Int, limit < 0 → offset < 0 →
        db_filter table obj_id field_comp indexer mode limit offset
          = PyResult.valueError
              "Limit cannot be less than 0 | Offset cannot be less than 0")
  ∧ (∀ limit offset : Int, limit < 0 → 0 ≤ offset →
        db_filter table obj_id field_comp indexer mode limit offset
          = PyResult.valueError "Limit cannot be less than 0")
  ∧ (∀ limit offset : Int, 0 ≤ limit → offset < 0 →
        db_filter table obj_id field_comp indexer mode limit offset
          = PyResult.valueError "Offset cannot be less than 0") := by
  refine ⟨?_, ?_, ?_, ?_, ?_⟩
  · intro limit offset hgt
    have e1 : ¬ (limit < 0) := by omega
    by_cases ho : offset < 0
    · simp [db_filter, e1, ho, PyResult.isValueError]
    · have e3 : limit > 100 := by omega
      simp [db_filter, e1, ho, e3, PyResult.isValueError]
  · intro offset
    have c1 : ¬ ((100 : Int) < 0) := by decide
    have c3 : ¬ ((100 : Int) > 100) := by decide
    have c4 : ¬ ((100 : Int) = 0) := by decide
    by_cases ho : offset < 0
    · simp [db_filter, c1, ho]
      decide
    · by_cases hx : Bool.xor obj_id.truthy field_comp.isSome = true
      · rw [db_filter_xor_raises table obj_id field_comp indexer mode 100 offset
          (by decide) (by decide) (by omega) hx]
        simp
      · have hxf : Bool.xor obj_id.truthy field_comp.isSome = false := by
          simpa using hx
        cases mode <;> simp [db_filter, c1, ho, c3, c4, hxf]
  · intro limit offset hl ho
    simp [db_filter, hl, ho]
    decide
  · intro limit offset hl ho
    have e2 : ¬ (offset < 0) := by omega
    simp [db_filter, hl, e2]
    decide
  · intro limit offset hl ho
    have e1 : ¬ (limit < 0) := by omega
    simp [db_filter, e1, ho]
    decide

/-- C4 (witness): the theorem applied at concrete calls covering all five
parts: limit 101, limit 100, and the three negative combinations. -/
theorem C4_limit_bounds_witness :
    (db_filter ([1, 2, 3] : List Nat) PyVal.none none (fun n => (n : Int))
        FilterMode.all 101 0).isValueError = true
  ∧ db_filter ([1, 2, 3] : List Nat) PyVal.none none (fun n => (n : Int))
        FilterMode.all 100 0
      ≠ PyResult.valueError "Limit must not exceed by 100 per transaction"
  ∧ db_filter ([1, 2, 3] : List Nat) PyVal.none none (fun n => (n : Int))
        FilterMode.all (-1) (-2)
      = PyResult.valueError
          "Limit cannot be less than 0 | Offset cannot be less than 0"
  ∧ db_filter ([1, 2, 3] : List Nat) PyVal.none none (fun n => (n : Int))
        FilterMode.all (-1) 0
      = PyResult.valueError "Limit cannot be less than 0"
  ∧ db_filter ([1, 2, 3] : List Nat) PyVal.none none (fun n => (n : Int))
        FilterMode.all 5 (-2)
      = PyResult.valueError "Offset cannot be less than 0" := by
  have h := C4_limit_bounds ([1, 2, 3] : List Nat) PyVal.none none
    (fun n => (n : Int)) FilterMode.all
  exact ⟨h.1 101 0 (by decide), h.2.1 0, h.2.2.1 (-1) (-2) (by decide) (by decide),
    h.2.2.2.1 (-1) 0 (by decide) (by decide), h.2.2.2.2 5 (-2) (by decide) (by decide)⟩

/-- C6: for every stored record and partial patch with distinct field names,
`update` on a successful commit returns the merged record in which every field
absent from the patch holds exactly its previous value and every field present
in the patch holds exactly the patch value; `update` propagates the 404 of its
internal `read` unchanged when the record is missing, and otherwise delegates
persistence of the merged record to `create`. -/
theorem C6_update_partial_patch (obj : Record) (patch : Patch)
    (obj_id dbName obj_id2 dbName2 : String) (patch2 : Patch)
    (refresh refresh2 : Record → Record) (outcome outcome2 : CommitOutcome)
    (hnd : (patch.map Prod.fst).Nodup) :
    update (Except.ok (some obj)) (fun r => r) CommitOutcome.success obj_id dbName patch
        = Except.ok (applyPatch obj patch)
  ∧ (∀ k : String, patch.lookup k = none →
        (applyPatch obj patch).lookup k = obj.lookup k)
  ∧ (∀ (k : String) (v : PyVal), patch.lookup k = some v →
        (applyPatch obj patch).lookup k = some v)
  ∧ update (Except.ok none) refresh2 outcome2 obj_id2 dbName2 patch2
        = Except.error (HelperExc.httpException 404
            (dbName2 ++ " with id " ++ obj_id2 ++ " not found"))
  ∧ update (Except.ok (some obj)) refresh outcome obj_id dbName patch
        = (create refresh outcome (applyPatch obj patch)).result := by
  refine ⟨rfl, ?_, ?_, rfl, rfl⟩
  · intro k hk
    exact lookup_applyPatch_none obj patch k hk
  · intro k v hv
    exact lookup_applyPatch_some obj patch k v hnd hv

/-- C6 (witness): the theorem applied at a concrete record and patch — the
field "b" is overwritten, "c" is added, "a" keeps its old value — and at a
missing record, where the 404 message embeds the type name and id. -/
theorem C6_update_partial_patch_witness :
    update (Except.ok (some [("a", PyVal.int 1), ("b", PyVal.str "x")]))
        (fun r => r) CommitOutcome.success "id1" "Users"
        [("b", PyVal.str "y"), ("c", PyVal.int 7)]
      = Except.ok (applyPatch [("a", PyVal.int 1), ("b", PyVal.str "x")]
          [("b", PyVal.str "y"), ("c", PyVal.int 7)])
  ∧ (applyPatch [("a", PyVal.int 1), ("b", PyVal.str "x")]
        [("b", PyVal.str "y"), ("c", PyVal.int 7)]).lookup "a"
      = ([("a", PyVal.int 1), ("b", PyVal.str "x")] : Record).lookup "a"
  ∧ (applyPatch [("a", PyVal.int 1), ("b", PyVal.str "x")]
        [("b", PyVal.str "y"), ("c", PyVal.int 7)]).lookup "b"
      = some (PyVal.str "y")
  ∧ update (Except.ok none) (fun r => r) CommitOutcome.success "id9" "Tasks" []
      = Except.error (HelperExc.httpException 404
          ("Tasks" ++ " with id " ++ "id9" ++ " not found")) := by
  have h := C6_update_partial_patch [("a", PyVal.int 1), ("b", PyVal.str "x")]
    [("b", PyVal.str "y"), ("c", PyVal.int 7)] "id1" "Users" "id9" "Tasks" []
    (fun r => r) (fun r => r) CommitOutcome.success CommitOutcome.success (by decide)
  exact ⟨h.1, h.2.1 "a" (by decide), h.2.2.1 "b" (PyVal.str "y") (by decide),
    h.2.2.2.1⟩

/-- C8: the activity logger stores the message truncated to at most 255
characters in the ActivityLog row, and on every persistence failure it returns
normally after printing the operator-visible report and rolling back — the
call never raises to its caller. -/
theorem C8_log_truncation_best_effort (commitResult : Option String)
    (action message : String) (user_id : Option String) (details : String)
    (code : Int) (project_id : Option String) (e : String) :
    (∃ r : LogResult,
        log commitResult action message user_id details code project_id
          = Except.ok r)
  ∧ (∀ r : LogResult,
        log commitResult action message user_id details code project_id
            = Except.ok r →
          r.row.action_desc = pySlice message 255 ∧ r.row.action_desc.length ≤ 255)
  ∧ log (some e) action message user_id details code project_id
      = Except.ok ⟨⟨user_id, project_id, action, pySlice message 255, code, details⟩,
          false, some ("CRITICAL LOGGING ERROR " ++ e), true⟩ := by
  refine ⟨?_, ?_, rfl⟩
  · cases commitResult with
    | none => exact ⟨_, rfl⟩
    | some e2 => exact ⟨_, rfl⟩
  · intro r hr
    cases commitResult with
    | none =>
        have hr2 : Except.ok
            (⟨⟨user_id, project_id, action, pySlice message 255, code, details⟩,
              true, none, false⟩ : LogResult) = Except.ok r := hr
        injection hr2 with hq
        subst hq
        exact ⟨rfl, pySlice_length_le message 255⟩
    | some e2 =>
        have hr2 : Except.ok
            (⟨⟨user_id, project_id, action, pySlice message 255, code, details⟩,
              false, some ("CRITICAL LOGGING ERROR " ++ e2), true⟩ : LogResult)
            = Except.ok r := hr
        injection hr2 with hq
        subst hq
        exact ⟨rfl, pySlice_length_le message 255⟩

/-- C8 (witness): the theorem applied at a concrete failing commit. -/
theorem C8_log_truncation_best_effort_witness :
    log (some "db down") "CREATE_USER" "hello" (some "u-1") "" 200 none
      = Except.ok ⟨⟨some "u-1", none, "CREATE_USER", pySlice "hello" 255, 200, ""⟩,
          false, some ("CRITICAL LOGGING ERROR " ++ "db down"), true⟩
  ∧ (pySlice "hello" 255).length ≤ 255 := by
  have h := C8_log_truncation_best_effort (some "db down") "CREATE_USER" "hello"
    (some "u-1") "" 200 none "db down"
  refine ⟨h.2.2, ?_⟩
  have h2 := h.2.1 ⟨⟨some "u-1", none, "CREATE_USER", pySlice "hello" 255, 200, ""⟩,
      false, some ("CRITICAL LOGGING ERROR " ++ "db down"), true⟩ h.2.2
  exact h2.2

/-- C9 (counterexample): an unhandled exception whose `str(exc)` is empty
produces an envelope whose single error description has an empty detail, and a
request-validation exception carrying no sub-errors produces an envelope whose
errors list is empty — refuting the claim that every error path yields at
least one error description, each with non-empty detail. -/
theorem C9_counterexample :
    (error_handler req0 (Exc.other "Exception" "")).response.content.errors
        = [⟨500, "Internal Server Error", ""⟩]
  ∧ (error_handler req0 (Exc.requestValidationError [])).response.content.errors
        = [] := by
  decide

/-- C9 (amended): every error path through the translator produces an envelope
with result "error" in which every error description has a nonempty title;
and when the detail source is nontrivial — the validation exception carries at
least one sub-error, and the HTTP exception detail, the ValueError message or
the stringified unhandled exception is nonempty — the errors list has length
at least 1 and every error description also has a nonempty detail. -/
theorem C9_error_envelope (request : RequestInfo) (exc : Exc) :
    (error_handler request exc).response.content.result = "error"
  ∧ (∀ e ∈ (error_handler request exc).response.content.errors, e.title ≠ "")
  ∧ (detailSourceOk exc = true →
        1 ≤ (error_handler request exc).response.content.errors.length
      ∧ ∀ e ∈ (error_handler request exc).response.content.errors, e.detail ≠ "") := by
  cases exc with
  | requestValidationError errs =>
      refine ⟨rfl, ?_, ?_⟩
      · intro e he
        simp [error_handler, error_response, get_errordesc] at he
        obtain ⟨a, b, hmem, heq⟩ := he
        subst heq
        exact (by decide : ("Validation Error" : String) ≠ "")
      · intro h
        have hne : errs ≠ [] := by
          simpa [detailSourceOk] using h
        refine ⟨?_, ?_⟩
        · have hlen :
              (error_handler request
                  (Exc.requestValidationError errs)).response.content.errors.length
                = errs.length := by
            simp [error_handler, error_response]
          rw [hlen]
          exact List.length_pos.mpr hne
        · intro e he
          simp [error_handler, error_response, get_errordesc] at he
          obtain ⟨a, b, hmem, heq⟩ := he
          subst heq
          exact string_append_colon_ne_empty _ _
  | httpException status detail =>
      refine ⟨rfl, ?_, ?_⟩
      · intro e he
        simp [error_handler, error_response, get_errordesc] at he
        subst he
        exact (by decide : ("Error" : String) ≠ "")
      · intro h
        have hd : detail ≠ "" := by
          simpa [detailSourceOk] using h
        refine ⟨by simp [error_handler, error_response], ?_⟩
        intro e he
        simp [error_handler, error_response, get_errordesc] at he
        subst he
        exact hd
  | valueError msg =>
      refine ⟨rfl, ?_, ?_⟩
      · intro e he
        simp [error_handler, error_response, get_errordesc] at he
        subst he
        exact (by decide : ("Error" : String) ≠ "")
      · intro h
        have hd : msg ≠ "" := by
          simpa [detailSourceOk] using h
        refine ⟨by simp [error_handler, error_response], ?_⟩
        intro e he
        simp [error_handler, error_response, get_errordesc] at he
        subst he
        exact hd
  | other errorClass msg =>
      refine ⟨rfl, ?_, ?_⟩
      · intro e he
        simp [error_handler, error_response, get_errordesc] at he
        subst he
        exact (by decide : ("Internal Server Error" : String) ≠ "")
      · intro h
        have hd : msg ≠ "" := by
          simpa [detailSourceOk] using h
        refine ⟨by simp [error_handler, error_response], ?_⟩
        intro e he
        simp [error_handler, error_response, get_errordesc] at he
        subst he
        exact hd

/-- C9 (witness): the amended theorem applied at a concrete ValueError, the
nontriviality hypothesis of the conditional conjunct discharged there. -/
theorem C9_error_envelope_witness :
    (error_handler req0 (Exc.valueError "nope")).response.content.result = "error"
  ∧ 1 ≤ (error_handler req0 (Exc.valueError "nope")).response.content.errors.length := by
  have h := C9_error_envelope req0 (Exc.valueError "nope")
  exact ⟨h.1, (h.2.2 (by decide)).1⟩
